import Mathlib

/-!
Shallow embedding of the AHELP backend (src/AHELP/backend/server.js).

The Express route handlers are modelled as pure Lean functions over an
explicit `ServerState` holding the three record collections (users,
progress entries, community posts) that the server keeps in its three
JSON files.  Each handler in the source performs one `readJson`, a pure
in-memory transformation, and optionally one `writeJson`; here that is
explicit state passing: a handler takes the state and returns the
response together with the successor state.

External effects are modelled as explicit inputs:
  - the HMAC-SHA-256 of crypto.createHmac(sha256, salt).update(password)
    becomes an abstract keyed-hash function `hmac : String -> String ->
    String` (key first, message second), passed as a parameter;
  - the fresh random salt of crypto.randomBytes(16) becomes a
    `salt : String` input to the register operation;
  - `new Date().toISOString()` becomes a `now : String` input to the
    operations that stamp records.

JavaScript numbers are modelled by `JsNum`: NaN, the two infinities,
and finite values.  Finite values are carried as integers: every value
appearing in the claims is a small integer, on which IEEE-754 double
addition is exact, and the NaN/infinity propagation rules of `+` are
value-exact.  Request-body fields are `Option`-valued: `none` stands
for an absent (undefined or null) field.
-/

/-- JavaScript numbers as relevant to this server: NaN, +Infinity,
-Infinity, and finite values (integers, exact for every value the
claims mention). -/
inductive JsNum where
  | nan : JsNum
  | posInf : JsNum
  | negInf : JsNum
  | fin : Int → JsNum
deriving DecidableEq, Repr

/-- IEEE-754 addition as JavaScript's `+` behaves on `JsNum`:
NaN absorbs everything, opposite infinities give NaN, an infinity
absorbs finite values, finite addition is exact integer addition. -/
def JsNum.add : JsNum → JsNum → JsNum
  | .nan, _ => .nan
  | _, .nan => .nan
  | .posInf, .negInf => .nan
  | .negInf, .posInf => .nan
  | .posInf, _ => .posInf
  | _, .posInf => .posInf
  | .negInf, _ => .negInf
  | _, .negInf => .negInf
  | .fin a, .fin b => .fin (a + b)

/-- JavaScript truthiness of a number: `0` and `NaN` are falsy,
everything else (including the infinities) is truthy. -/
def JsNum.truthy : JsNum → Bool
  | .nan => false
  | .fin v => v != 0
  | _ => true

/-- JavaScript truthiness test for an optional string field:
an absent field and the empty string are falsy (`!x`). -/
def isFalsyStr : Option String → Bool
  | none => true
  | some s => s == ""

/-- The JavaScript idiom defaulting a field to the empty string
(x OR empty-string): absent or empty yields the empty string. -/
def jsOrEmpty (o : Option String) : String := o.getD ""

/-- The JavaScript idiom `x || 0` on an optional number
(`user.points || 0` in the points handler): an absent field or a falsy
number (0 or NaN) yields 0. -/
def jsOrZero : Option JsNum → JsNum
  | none => .fin 0
  | some v => if v.truthy then v else .fin 0

/-- The JavaScript idiom `x || null` on an optional number
(`steps || null` in the progress handler): an absent field or a falsy
number (0 or NaN) yields null (modelled as `none`). -/
def jsOrNull : Option JsNum → Option JsNum
  | none => none
  | some v => if v.truthy then some v else none

/-- A stored user record, as constructed by the register handler.
`points` is optional so that records whose `points` field is absent
(undefined) are representable; the register handler always sets it. -/
structure User where
  username : String
  passwordHash : String
  salt : String
  name : String
  agency : String
  age : String
  gender : String
  height : String
  weight : String
  exercise : String
  fruitsVeg : String
  water : String
  tobacco : String
  points : Option JsNum
deriving DecidableEq, Repr

/-- A user record with the credential fields removed, as produced by
`const \x7b passwordHash, salt, ...safeUser \x7d = user` in the login and
profile handlers.  The type itself has no hash or salt field. -/
structure SafeUser where
  username : String
  name : String
  agency : String
  age : String
  gender : String
  height : String
  weight : String
  exercise : String
  fruitsVeg : String
  water : String
  tobacco : String
  points : Option JsNum
deriving DecidableEq, Repr

/-- Strip the credential fields from a user record, keeping every
other field unchanged. -/
def stripUser (u : User) : SafeUser :=
  { username := u.username
    name := u.name
    agency := u.agency
    age := u.age
    gender := u.gender
    height := u.height
    weight := u.weight
    exercise := u.exercise
    fruitsVeg := u.fruitsVeg
    water := u.water
    tobacco := u.tobacco
    points := u.points }

/-- A stored progress entry; `none` in `steps` or `minutes` models the
stored JSON null. -/
structure ProgressEntry where
  username : String
  steps : Option JsNum
  minutes : Option JsNum
  timestamp : String
deriving DecidableEq, Repr

/-- A stored community post. -/
structure Post where
  username : String
  title : String
  description : String
  image : String
  duration : String
  activityType : String
  timestamp : String
deriving DecidableEq, Repr

/-- The persistent state of the server: the contents of the three JSON
files users.json, progress.json and community.json. -/
structure ServerState where
  users : List User
  progress : List ProgressEntry
  posts : List Post
deriving DecidableEq, Repr

/-- Response bodies that the handlers produce. -/
inductive RespBody where
  | message : String → RespBody
  | error : String → RespBody
  | user : SafeUser → RespBody
  | points : JsNum → RespBody
  | entries : List ProgressEntry → RespBody
  | posts : List Post → RespBody
deriving DecidableEq, Repr

/-- An HTTP response: status code and JSON body. -/
structure Response where
  status : Nat
  body : RespBody
deriving DecidableEq, Repr

/-- Request body of POST /api/register; every field is client-supplied
and may be absent. -/
structure RegisterBody where
  username : Option String
  password : Option String
  name : Option String
  agency : Option String
  age : Option String
  gender : Option String
  height : Option String
  weight : Option String
  exercise : Option String
  fruitsVeg : Option String
  water : Option String
  tobacco : Option String
deriving DecidableEq, Repr

/-- Request body of POST /api/community. -/
structure PostBody where
  username : Option String
  title : Option String
  description : Option String
  image : Option String
  duration : Option String
  activityType : Option String
deriving DecidableEq, Repr

/-- Replace the first element satisfying `p` by its image under `f`,
modelling the in-place mutation of the record returned by
`users.find(...)` followed by a full rewrite of the array. -/
def updateFirst (p : α → Bool) (f : α → α) : List α → List α
  | [] => []
  | x :: xs => if p x then f x :: xs else x :: updateFirst p f xs

/-- The inline credential derivation of the register handler
(lines 73-74): a fresh salt and the HMAC of the password keyed by the
salt, both returned for storage. -/
def deriveCredential (hmac : String → String → String)
    (salt password : String) : String × String :=
  (hmac salt password, salt)

/-- The inline credential verification of the login handler
(lines 104-105): recompute the HMAC of the password keyed by the stored
salt and compare with the stored hash. -/
def verifyCredential (hmac : String → String → String)
    (password hash salt : String) : Bool :=
  hmac salt password == hash

/-- POST /api/register (server.js lines 49-94).  Validates presence of
username and password, rejects a duplicate username, otherwise derives
the credential and appends a fresh record with points 0. -/
def register (hmac : String → String → String) (salt : String)
    (b : RegisterBody) (st : ServerState) : Response × ServerState :=
  if isFalsyStr b.username || isFalsyStr b.password then
    (⟨400, .error "Username and password are required."⟩, st)
  else
    let username := b.username.getD ""
    let password := b.password.getD ""
    if (st.users.find? (fun u => u.username == username)).isSome then
      (⟨400, .error "Username already exists."⟩, st)
    else
      let newUser : User :=
        { username := username
          passwordHash := hmac salt password
          salt := salt
          name := jsOrEmpty b.name
          agency := jsOrEmpty b.agency
          age := jsOrEmpty b.age
          gender := jsOrEmpty b.gender
          height := jsOrEmpty b.height
          weight := jsOrEmpty b.weight
          exercise := jsOrEmpty b.exercise
          fruitsVeg := jsOrEmpty b.fruitsVeg
          water := jsOrEmpty b.water
          tobacco := jsOrEmpty b.tobacco
          points := some (.fin 0) }
      (⟨200, .message "User registered successfully."⟩,
       { st with users := st.users ++ [newUser] })

/-- POST /api/login (server.js lines 97-111).  Looks up the user,
recomputes the keyed hash, and on success returns the record with the
credential fields stripped.  The handler performs no write, so only
the response is returned. -/
def login (hmac : String → String → String) (username password : String)
    (st : ServerState) : Response :=
  match st.users.find? (fun u => u.username == username) with
  | none => ⟨400, .error "Invalid credentials."⟩
  | some user =>
    if hmac user.salt password != user.passwordHash then
      ⟨400, .error "Invalid credentials."⟩
    else
      ⟨200, .user (stripUser user)⟩

/-- GET /api/user/:username (server.js lines 114-122). -/
def getProfile (username : String) (st : ServerState) : Response :=
  match st.users.find? (fun u => u.username == username) with
  | none => ⟨404, .error "User not found."⟩
  | some user => ⟨200, .user (stripUser user)⟩

/-- POST /api/user/:username/points (server.js lines 125-138).  The
body field `points` is `none` when absent or not of the runtime number
type (the typeof check in line 127); NaN and the infinities are of the
number type, so they arrive as `some`. -/
def addPoints (username : String) (points : Option JsNum)
    (st : ServerState) : Response × ServerState :=
  match points with
  | none => (⟨400, .error "The \"points\" field must be a number."⟩, st)
  | some delta =>
    match st.users.find? (fun u => u.username == username) with
    | none => (⟨404, .error "User not found."⟩, st)
    | some user =>
      let newPoints := (jsOrZero user.points).add delta
      let newUsers := updateFirst (fun u => u.username == username)
        (fun u => { u with points := some newPoints }) st.users
      (⟨200, .points newPoints⟩, { st with users := newUsers })

/-- POST /api/user/:username/progress (server.js lines 143-157).
`steps == null` in JavaScript is true exactly for null and undefined,
both modelled by `none`.  Stored values go through `x || null`. -/
def logProgress (now : String) (username : String)
    (steps minutes : Option JsNum) (st : ServerState) :
    Response × ServerState :=
  if steps.isNone && minutes.isNone then
    (⟨400, .error "Please provide steps or minutes."⟩, st)
  else
    let entry : ProgressEntry :=
      { username := username
        steps := jsOrNull steps
        minutes := jsOrNull minutes
        timestamp := now }
    (⟨200, .message "Progress logged successfully."⟩,
     { st with progress := st.progress ++ [entry] })

/-- GET /api/user/:username/progress (server.js lines 160-163). -/
def listProgress (username : String) (st : ServerState) :
    List ProgressEntry :=
  st.progress.filter (fun p => p.username == username)

/-- GET /api/community (server.js lines 168-171). -/
def listPosts (st : ServerState) : List Post := st.posts

/-- POST /api/community (server.js lines 174-191). -/
def createPost (now : String) (b : PostBody) (st : ServerState) :
    Response × ServerState :=
  if isFalsyStr b.username || isFalsyStr b.description then
    (⟨400, .error "Post must include a username and description."⟩, st)
  else
    let post : Post :=
      { username := b.username.getD ""
        title := jsOrEmpty b.title
        description := b.description.getD ""
        image := jsOrEmpty b.image
        duration := jsOrEmpty b.duration
        activityType := jsOrEmpty b.activityType
        timestamp := now }
    (⟨200, .message "Post created successfully."⟩,
     { st with posts := st.posts ++ [post] })

/-- The backing file of one record kind: absent, or present with some
textual content. -/
inductive FileState where
  | missing : FileState
  | present : String → FileState
deriving DecidableEq, Repr

/-- readJson (server.js lines 27-36), generic in the record kind.
`parse` models `JSON.parse` reading a sequence of records of the kind,
returning `none` where `JSON.parse` would throw.  An absent file gives
the empty list; empty content falls back to the two-character
empty-array literal (the fallback JSON.parse(data OR emptyArray) in
line 31); a parse failure is caught and gives the empty list.  The
function is total: no error propagates to the caller. -/
def readJson {α : Type} (parse : String → Option (List α)) :
    FileState → List α
  | .missing => []
  | .present s => (parse (if s == "" then "[]" else s)).getD []

/-- The uniqueness invariant of the user store: pairwise-distinct
usernames. -/
def UsernamesDistinct (users : List User) : Prop :=
  (users.map User.username).Nodup

/-! Helper lemmas and concrete fixtures shared by the verification
theorems below. -/

/-- `updateFirst` with a map-preserving update leaves the image of the
list under `g` unchanged. -/
theorem updateFirst_map {α β : Type} (g : α → β) (p : α → Bool) (f : α → α)
    (hf : ∀ x, g (f x) = g x) :
    ∀ l : List α, (updateFirst p f l).map g = l.map g := by
  intro l
  induction l with
  | nil => rfl
  | cons x xs ih =>
    by_cases h : p x = true
    · simp [updateFirst, h, hf]
    · simp [updateFirst, h, ih]

/-- Looking up the first match after `updateFirst` with a
predicate-preserving update yields the image of the original first
match. -/
theorem find?_updateFirst {α : Type} (p : α → Bool) (f : α → α)
    (hf : ∀ x, p (f x) = p x) :
    ∀ l : List α, (updateFirst p f l).find? p = (l.find? p).map f := by
  intro l
  induction l with
  | nil => rfl
  | cons x xs ih =>
    by_cases h : p x = true
    · simp [updateFirst, h, List.find?, hf]
    · simp [updateFirst, h, List.find?, ih]

/-- A finite stored points value passes through the falsy-coercion
unchanged: when it is 0 the coercion replaces it by 0. -/
theorem jsOrZero_fin (q : Int) : jsOrZero (some (.fin q)) = .fin q := by
  by_cases h : q = 0 <;> simp [jsOrZero, JsNum.truthy, h]

/-- Stand-in for the abstract keyed hash, used only to instantiate the
theorems at concrete inputs. -/
def hmacModel (key msg : String) : String := key ++ ":" ++ msg

/-- The empty store: all three backing files hold empty sequences. -/
def emptyStore : ServerState := { users := [], progress := [], posts := [] }

/-- A registration request for user alice carrying only the required
fields. -/
def aliceBody : RegisterBody :=
  { username := some "alice", password := some "pw123", name := none
    agency := none, age := none, gender := none, height := none
    weight := none, exercise := none, fruitsVeg := none, water := none
    tobacco := none }

/-- The record that registering alice with password pw123 and salt s0
under `hmacModel` produces: `hmacModel "s0" "pw123"` is the string
below. -/
def aliceUser : User :=
  { username := "alice", passwordHash := "s0:pw123", salt := "s0"
    name := "", agency := "", age := "", gender := ""
    height := "", weight := "", exercise := "", fruitsVeg := ""
    water := "", tobacco := "", points := some (.fin 0) }

/-- A store holding exactly one user, alice, with 0 points. -/
def aliceStore : ServerState :=
  { users := [aliceUser], progress := [], posts := [] }

/-- A store holding one user whose points field is absent. -/
def bobStore : ServerState :=
  { users := [{ aliceUser with username := "bob", points := none }]
    progress := [], posts := [] }

/-- A store holding one user whose stored points value is NaN. -/
def aliceNanStore : ServerState :=
  { users := [{ aliceUser with points := some .nan }]
    progress := [], posts := [] }

/-- A community-post request lacking the required description. -/
def noDescBody : PostBody :=
  { username := some "alice", title := some "t", description := none
    image := none, duration := none, activityType := none }

/-- C1: Credential round-trip.  Verifying a password against the
(hash, salt) pair derived from it succeeds, because the login handler
recomputes the same HMAC of the password keyed by the stored salt; and
end to end, a user registered with password pw (username fresh in the
store) subsequently authenticates successfully with pw. -/
theorem credential_roundtrip
    (hmac : String → String → String) (salt password : String)
    (b : RegisterBody) (st : ServerState) (un pw : String)
    (hun : b.username = some un) (hpw : b.password = some pw)
    (hne : un ≠ "") (hpne : pw ≠ "")
    (hfresh : st.users.find? (fun u => u.username == un) = none) :
    verifyCredential hmac password (deriveCredential hmac salt password).1
      (deriveCredential hmac salt password).2 = true
    ∧ (login hmac un pw (register hmac salt b st).2).status = 200 := by
  constructor
  · simp [verifyCredential, deriveCredential]
  · simp only [register, isFalsyStr, hun, hpw, Option.getD_some]
    have hub : (un == "") = false := by
      simpa using hne
    have hpb : (pw == "") = false := by
      simpa using hpne
    simp only [hub, hpb, Bool.or_self, Bool.false_eq_true, if_false,
      hfresh, Option.isSome_none, login]
    rw [List.find?_append, hfresh]
    simp [List.find?]

/-- Witness for the credential round-trip at concrete inputs: alice
registers with password pw123 into the empty store and then logs in
with pw123. -/
theorem credential_roundtrip_witness :
    verifyCredential hmacModel "pw123"
      (deriveCredential hmacModel "s1" "pw123").1
      (deriveCredential hmacModel "s1" "pw123").2 = true
    ∧ (login hmacModel "alice" "pw123"
        (register hmacModel "s1" aliceBody emptyStore).2).status = 200 :=
  credential_roundtrip hmacModel "s1" "pw123" aliceBody emptyStore
    "alice" "pw123" rfl rfl (by decide) (by decide) rfl

/-- C2: Username uniqueness is an invariant of the user store.  The
state-mutating operations (register, addPoints) preserve pairwise
distinctness of usernames, and logProgress and createPost leave the
user collection untouched (login and getProfile return no state at
all, so they cannot mutate it).  Registering a username already
present exactly once (case-sensitive match) yields the 400 conflict
response, leaves the store unchanged, and keeps the record count for
that username at 1. -/
theorem username_uniqueness_invariant
    (hmac : String → String → String) (salt now un lun : String)
    (b b2 : RegisterBody) (st st2 : ServerState)
    (pts steps minutes : Option JsNum) (pb : PostBody)
    (hd : UsernamesDistinct st.users)
    (hun : b2.username = some un) (hne : un ≠ "")
    (hpw : isFalsyStr b2.password = false)
    (hcount : st2.users.countP (fun u => u.username == un) = 1) :
    UsernamesDistinct (register hmac salt b st).2.users
    ∧ UsernamesDistinct (addPoints lun pts st).2.users
    ∧ (logProgress now lun steps minutes st).2.users = st.users
    ∧ (createPost now pb st).2.users = st.users
    ∧ register hmac salt b2 st2 = (⟨400, .error "Username already exists."⟩, st2)
    ∧ (register hmac salt b2 st2).2.users.countP
        (fun u => u.username == un) = 1 := by
  have hreg : register hmac salt b2 st2 =
      (⟨400, .error "Username already exists."⟩, st2) := by
    have hpos : 0 < st2.users.countP (fun u => u.username == un) := by
      rw [hcount]; exact Nat.one_pos
    have hex := List.countP_pos_iff.mp hpos
    have hsome : (st2.users.find? (fun u => u.username == un)).isSome = true :=
      List.find?_isSome.mpr hex
    have hub : (un == "") = false := by simpa using hne
    have hval : (isFalsyStr b2.username || isFalsyStr b2.password) = false := by
      rw [hun]
      simp only [isFalsyStr, hub, Bool.false_or]
      exact hpw
    simp only [register, hval, Bool.false_eq_true, if_false, hun,
      Option.getD_some, hsome, if_true]
    simp [hsome]
    exact ⟨by simp [isFalsyStr, hub], hpw⟩
  refine ⟨?_, ?_, ?_, ?_, hreg, ?_⟩
  · by_cases h1 : (isFalsyStr b.username || isFalsyStr b.password) = true
    · simpa [register, h1] using hd
    · by_cases h2 : (st.users.find? (fun u =>
          u.username == b.username.getD "")).isSome = true
      · simpa [register, h1, h2] using hd
      · have hnone : st.users.find? (fun u =>
            u.username == b.username.getD "") = none :=
          Option.not_isSome_iff_eq_none.mp (by simpa using h2)
        have hni : b.username.getD "" ∉ st.users.map User.username := by
          intro hmem
          rcases List.mem_map.mp hmem with ⟨u, hu, he⟩
          have := List.find?_eq_none.mp hnone u hu
          simp [he] at this
        simp only [register, h1, h2, Bool.false_eq_true, if_false]
        unfold UsernamesDistinct at hd ⊢
        simp only [List.map_append, List.map_cons, List.map_nil]
        rw [List.nodup_append]
        exact ⟨hd, List.nodup_singleton _,
          fun a ha hb => hni (by simpa [List.mem_singleton.mp hb] using ha)⟩
  · cases pts with
    | none => simpa [addPoints] using hd
    | some delta =>
      cases hfind : st.users.find? (fun u => u.username == lun) with
      | none => simpa [addPoints, hfind] using hd
      | some u =>
        unfold UsernamesDistinct at hd ⊢
        simp only [addPoints, hfind]
        rw [updateFirst_map User.username (fun v => v.username == lun)
          (fun v => { v with points := some ((jsOrZero u.points).add delta) })
          (fun x => rfl)]
        exact hd
  · by_cases h : (steps.isNone && minutes.isNone) = true <;>
      simp [logProgress, h]
  · by_cases h : (isFalsyStr pb.username || isFalsyStr pb.description) = true <;>
      simp [createPost, h]
  · rw [hreg]
    exact hcount

/-- Witness for the uniqueness invariant: the empty store and the
one-alice store, with alice registered a second time. -/
theorem username_uniqueness_invariant_witness :
    UsernamesDistinct (register hmacModel "s1" aliceBody emptyStore).2.users
    ∧ UsernamesDistinct (addPoints "alice" (some (.fin 1)) emptyStore).2.users
    ∧ (logProgress "T0" "alice" (some (.fin 1)) none emptyStore).2.users
        = emptyStore.users
    ∧ (createPost "T0" noDescBody emptyStore).2.users = emptyStore.users
    ∧ register hmacModel "s1" aliceBody aliceStore =
        (⟨400, .error "Username already exists."⟩, aliceStore)
    ∧ (register hmacModel "s1" aliceBody aliceStore).2.users.countP
        (fun u => u.username == "alice") = 1 :=
  username_uniqueness_invariant hmacModel "s1" "T0" "alice" "alice"
    aliceBody aliceBody emptyStore aliceStore (some (.fin 1)) (some (.fin 1))
    none noDescBody (by simp [UsernamesDistinct, emptyStore]) rfl (by decide)
    rfl (by decide)

/-- C3: Every success payload of login (and of getProfile) is the
stored matching record with exactly the credential fields removed:
it arises as `stripUser` of a stored record with that username, and
`stripUser` is insensitive to the passwordHash and salt fields while
preserving every other field verbatim.  The `SafeUser` payload type
has no hash or salt field at all. -/
theorem auth_payload_strips_credentials
    (hmac : String → String → String) (un pw : String) (st : ServerState)
    (p q : SafeUser) (v : User) (hv sv : String)
    (hl : login hmac un pw st = ⟨200, .user p⟩)
    (hg : getProfile un st = ⟨200, .user q⟩) :
    (∃ u ∈ st.users, u.username = un ∧ p = stripUser u)
    ∧ (∃ u ∈ st.users, u.username = un ∧ q = stripUser u)
    ∧ stripUser { v with passwordHash := hv, salt := sv } = stripUser v
    ∧ stripUser v = ⟨v.username, v.name, v.agency, v.age, v.gender,
        v.height, v.weight, v.exercise, v.fruitsVeg, v.water, v.tobacco,
        v.points⟩ := by
  refine ⟨?_, ?_, rfl, rfl⟩
  · cases hfind : st.users.find? (fun u => u.username == un) with
    | none => simp [login, hfind] at hl
    | some u =>
      by_cases hb : (hmac u.salt pw != u.passwordHash) = true
      · simp [login, hfind, hb] at hl
      · refine ⟨u, List.mem_of_find?_eq_some hfind, ?_, ?_⟩
        · simpa using List.find?_some hfind
        · simp [login, hfind, hb] at hl
          exact hl.symm
  · cases hfind : st.users.find? (fun u => u.username == un) with
    | none => simp [getProfile, hfind] at hg
    | some u =>
      refine ⟨u, List.mem_of_find?_eq_some hfind, ?_, ?_⟩
      · simpa using List.find?_some hfind
      · simp [getProfile, hfind] at hg
        exact hg.symm

/-- Witness for credential stripping: alice logs in and her profile is
fetched on the one-alice store; the payload is her stripped record. -/
theorem auth_payload_strips_credentials_witness :
    (∃ u ∈ aliceStore.users, u.username = "alice"
        ∧ stripUser aliceUser = stripUser u)
    ∧ (∃ u ∈ aliceStore.users, u.username = "alice"
        ∧ stripUser aliceUser = stripUser u)
    ∧ stripUser { aliceUser with passwordHash := "x", salt := "y" }
        = stripUser aliceUser
    ∧ stripUser aliceUser = ⟨aliceUser.username, aliceUser.name,
        aliceUser.agency, aliceUser.age, aliceUser.gender, aliceUser.height,
        aliceUser.weight, aliceUser.exercise, aliceUser.fruitsVeg,
        aliceUser.water, aliceUser.tobacco, aliceUser.points⟩ :=
  auth_payload_strips_credentials hmacModel "alice" "pw123" aliceStore
    (stripUser aliceUser) (stripUser aliceUser) aliceUser "x" "y"
    (by decide) (by decide)

/-- C4: Both authentication failure cases, unknown username and failed
hash verification, produce the identical response, HTTP 400 with the
generic body Invalid credentials., so the response does not reveal
which check failed. -/
theorem auth_error_is_generic
    (hmac : String → String → String) (un1 pw1 un2 pw2 : String)
    (st1 st2 : ServerState) (u : User)
    (h1 : st1.users.find? (fun x => x.username == un1) = none)
    (h2 : st2.users.find? (fun x => x.username == un2) = some u)
    (h3 : hmac u.salt pw2 ≠ u.passwordHash) :
    login hmac un1 pw1 st1 = ⟨400, .error "Invalid credentials."⟩
    ∧ login hmac un2 pw2 st2 = ⟨400, .error "Invalid credentials."⟩ := by
  constructor
  · simp [login, h1]
  · simp [login, h2, h3]

/-- Witness for the generic auth error: unknown user on the empty
store, and alice with a wrong password on the one-alice store. -/
theorem auth_error_is_generic_witness :
    login hmacModel "alice" "pw123" emptyStore
      = ⟨400, .error "Invalid credentials."⟩
    ∧ login hmacModel "alice" "wrong" aliceStore
      = ⟨400, .error "Invalid credentials."⟩ :=
  auth_error_is_generic hmacModel "alice" "pw123" "alice" "wrong"
    emptyStore aliceStore aliceUser rfl (by decide) (by decide)

/-- C5: addPoints semantics.  A non-numeric delta is rejected with 400
and the store is unchanged; an unknown username yields 404 (store
unchanged); otherwise the stored points become the previous points
(a missing or undefined value counting as 0) plus the delta, the
updated record is persisted, and the new total is returned.  The
concrete scenario adds 5 then -2 to alice starting from 0 and obtains
3. -/
theorem addPoints_semantics
    (un un3 : String) (d q : Int) (st st1 st2 st3 : ServerState)
    (u u3 : User)
    (h1 : st1.users.find? (fun x => x.username == un) = none)
    (h2 : st2.users.find? (fun x => x.username == un) = some u)
    (hq : u.points = some (.fin q))
    (h3 : st3.users.find? (fun x => x.username == un3) = some u3)
    (hq3 : u3.points = none) :
    addPoints un none st
      = (⟨400, .error "The \"points\" field must be a number."⟩, st)
    ∧ addPoints un (some (.fin d)) st1 = (⟨404, .error "User not found."⟩, st1)
    ∧ (addPoints un (some (.fin d)) st2).1 = ⟨200, .points (.fin (q + d))⟩
    ∧ (addPoints un (some (.fin d)) st2).2.users.find?
        (fun x => x.username == un) = some { u with points := some (.fin (q + d)) }
    ∧ (addPoints un3 (some (.fin d)) st3).1 = ⟨200, .points (.fin d)⟩
    ∧ (addPoints "alice" (some (.fin (-2)))
        (addPoints "alice" (some (.fin 5)) aliceStore).2).1
        = ⟨200, .points (.fin 3)⟩ := by
  refine ⟨rfl, ?_, ?_, ?_, ?_, by decide⟩
  · simp [addPoints, h1]
  · simp [addPoints, h2, hq, jsOrZero_fin, JsNum.add]
  · simp only [addPoints, h2]
    have hperm := find?_updateFirst (fun x => x.username == un)
      (fun v => { v with points := some ((jsOrZero u.points).add (.fin d)) })
      (fun x => rfl) st2.users
    rw [hperm, h2]
    simp [hq, jsOrZero_fin, JsNum.add]
  · simp [addPoints, h3, hq3, jsOrZero, JsNum.add]

/-- Witness for addPoints: the one-alice store with 0 points, the
empty store for the unknown-user case, and a store whose single user
has no points field. -/
theorem addPoints_semantics_witness :
    addPoints "alice" none emptyStore
      = (⟨400, .error "The \"points\" field must be a number."⟩, emptyStore)
    ∧ addPoints "alice" (some (.fin 5)) emptyStore
      = (⟨404, .error "User not found."⟩, emptyStore)
    ∧ (addPoints "alice" (some (.fin 5)) aliceStore).1
      = ⟨200, .points (.fin (0 + 5))⟩
    ∧ (addPoints "alice" (some (.fin 5)) aliceStore).2.users.find?
        (fun x => x.username == "alice")
      = some { aliceUser with points := some (.fin (0 + 5)) }
    ∧ (addPoints "bob" (some (.fin 5)) bobStore).1 = ⟨200, .points (.fin 5)⟩
    ∧ (addPoints "alice" (some (.fin (-2)))
        (addPoints "alice" (some (.fin 5)) aliceStore).2).1
        = ⟨200, .points (.fin 3)⟩ :=
  addPoints_semantics "alice" "bob" 5 0 emptyStore emptyStore aliceStore
    bobStore aliceUser { aliceUser with username := "bob", points := none }
    rfl (by decide) rfl (by decide) rfl

/-- C6: logProgress rejects with 400 exactly when both steps and
minutes are absent, and otherwise appends one entry carrying the
server-generated timestamp, with no check that the username exists
(the outcome is independent of the user collection); listProgress
returns exactly the stored entries with a matching username, in stored
order (a sublist of the log containing every match).  The concrete
scenario logs 500 steps for bob on the empty log and lists exactly one
entry with steps 500 and null minutes. -/
theorem progress_log_and_list
    (now un : String) (steps minutes : Option JsNum) (st : ServerState)
    (otherUsers : List User)
    (hnb : ¬(steps = none ∧ minutes = none)) :
    logProgress now un none none st
      = (⟨400, .error "Please provide steps or minutes."⟩, st)
    ∧ (logProgress now un steps minutes st).1
      = ⟨200, .message "Progress logged successfully."⟩
    ∧ (logProgress now un steps minutes st).2.progress
      = st.progress ++ [⟨un, jsOrNull steps, jsOrNull minutes, now⟩]
    ∧ (logProgress now un steps minutes { st with users := otherUsers }).2.progress
      = (logProgress now un steps minutes st).2.progress
    ∧ List.Sublist (listProgress un st) st.progress
    ∧ (∀ e ∈ listProgress un st, e.username = un)
    ∧ (∀ e ∈ st.progress, e.username = un → e ∈ listProgress un st)
    ∧ listProgress "bob"
        (logProgress "T0" "bob" (some (.fin 500)) none emptyStore).2
      = [⟨"bob", some (.fin 500), none, "T0"⟩] := by
  have hcond : (steps.isNone && minutes.isNone) = false := by
    cases steps <;> cases minutes <;> simp_all
  refine ⟨by simp [logProgress], ?_, ?_, ?_, List.filter_sublist _, ?_, ?_,
    by decide⟩
  · simp [logProgress, hcond]
  · simp [logProgress, hcond]
  · simp [logProgress, hcond]
  · intro e he
    simpa using (List.mem_filter.mp he).2
  · intro e he hu
    exact List.mem_filter.mpr ⟨he, by simp [hu]⟩

/-- Witness for the progress service: logging 500 steps for bob. -/
theorem progress_log_and_list_witness :
    logProgress "T0" "bob" none none emptyStore
      = (⟨400, .error "Please provide steps or minutes."⟩, emptyStore)
    ∧ (logProgress "T0" "bob" (some (.fin 500)) none emptyStore).1
      = ⟨200, .message "Progress logged successfully."⟩
    ∧ (logProgress "T0" "bob" (some (.fin 500)) none emptyStore).2.progress
      = emptyStore.progress
        ++ [⟨"bob", jsOrNull (some (.fin 500)), jsOrNull none, "T0"⟩]
    ∧ (logProgress "T0" "bob" (some (.fin 500)) none
        { emptyStore with users := aliceStore.users }).2.progress
      = (logProgress "T0" "bob" (some (.fin 500)) none emptyStore).2.progress
    ∧ List.Sublist (listProgress "bob" emptyStore) emptyStore.progress
    ∧ (∀ e ∈ listProgress "bob" emptyStore, e.username = "bob")
    ∧ (∀ e ∈ emptyStore.progress, e.username = "bob"
        → e ∈ listProgress "bob" emptyStore)
    ∧ listProgress "bob"
        (logProgress "T0" "bob" (some (.fin 500)) none emptyStore).2
      = [⟨"bob", some (.fin 500), none, "T0"⟩] :=
  progress_log_and_list "T0" "bob" (some (.fin 500)) none emptyStore
    aliceStore.users (by simp)

/-- C7: createPost with a missing (or empty) description or username
is rejected with 400 and a ValidationError body, and the store is
returned unchanged: nothing is appended and the stored post sequence
keeps its length. -/
theorem createPost_validation_atomic
    (now : String) (b : PostBody) (st : ServerState)
    (hmiss : isFalsyStr b.username = true ∨ isFalsyStr b.description = true) :
    createPost now b st
      = (⟨400, .error "Post must include a username and description."⟩, st)
    ∧ (createPost now b st).2.posts.length = st.posts.length := by
  have hcond : (isFalsyStr b.username || isFalsyStr b.description) = true := by
    rcases hmiss with h | h <;> simp [h]
  constructor
  · simp [createPost, hcond]
  · simp [createPost, hcond]

/-- Witness for createPost validation: a post request without a
description against the empty store. -/
theorem createPost_validation_atomic_witness :
    createPost "T0" noDescBody emptyStore
      = (⟨400, .error "Post must include a username and description."⟩,
         emptyStore)
    ∧ (createPost "T0" noDescBody emptyStore).2.posts.length
      = emptyStore.posts.length :=
  createPost_validation_atomic "T0" noDescBody emptyStore (Or.inr rfl)

/-- C8: readJson absorbs every storage failure.  It is a total
function; an absent backing file yields the empty sequence, and
content the parser rejects also yields the empty sequence, for every
record kind (the kind and its parser are parameters). -/
theorem readJson_absorbs_failures {α : Type}
    (parse : String → Option (List α)) (s : String)
    (hs : s ≠ "") (hfail : parse s = none) :
    readJson parse FileState.missing = ([] : List α)
    ∧ readJson parse (.present s) = [] := by
  refine ⟨rfl, ?_⟩
  have hb : (s == "") = false := by simpa using hs
  simp [readJson, hb, hfail]

/-- Witness for readJson: a parser rejecting some corrupt content,
over the user record kind. -/
theorem readJson_absorbs_failures_witness :
    readJson (fun _ => (none : Option (List User))) FileState.missing
      = ([] : List User)
    ∧ readJson (fun _ => (none : Option (List User)))
        (.present "corrupt") = [] :=
  readJson_absorbs_failures (fun _ => none) "corrupt" (by decide) rfl

/-- C9: A progress request with steps 0 and no minutes passes
validation (0 is neither null nor undefined under the loose equality
check), yet the persisted entry holds null for both steps and minutes:
the falsy value 0 is coerced to null by the OR-null fallback, so the
supplied 0 is not preserved. -/
theorem progress_zero_steps_coerced
    (now un : String) (st : ServerState) :
    (logProgress now un (some (.fin 0)) none st).1.status = 200
    ∧ (logProgress now un (some (.fin 0)) none st).2.progress
      = st.progress ++ [⟨un, none, none, now⟩] := by
  constructor <;> simp [logProgress, jsOrNull, JsNum.truthy]

/-- Counterexample to C10 as stated: with alice at 0 points, sending
delta NaN does store and return NaN, but the next call with delta 5
returns 5, not NaN, because the stored NaN is falsy and the OR-zero
fallback in the handler resets it to 0.  So it is false that every
subsequent addPoints call for that user also returns NaN. -/
theorem addPoints_nan_counterexample :
    (addPoints "alice" (some .nan) aliceStore).1 = ⟨200, .points .nan⟩
    ∧ (addPoints "alice" (some (.fin 5))
        (addPoints "alice" (some .nan) aliceStore).2).1
      = ⟨200, .points (.fin 5)⟩
    ∧ RespBody.points (.fin 5) ≠ RespBody.points .nan := by
  decide

/-- C10 (amended): a NaN (or Infinity) delta passes the
runtime-number-type check; with delta NaN the stored points value and
the returned total become NaN for that call; but a subsequent
addPoints call with a finite delta treats the stored NaN as falsy in
the OR-zero fallback, coercing it to 0, and returns 0 plus that delta
rather than NaN. -/
theorem addPoints_nan_transient
    (un : String) (q d : Int) (st st2 : ServerState) (u u2 : User)
    (h1 : st.users.find? (fun x => x.username == un) = some u)
    (hq : u.points = some (.fin q))
    (h2 : st2.users.find? (fun x => x.username == un) = some u2)
    (hn : u2.points = some .nan) :
    (addPoints un (some .nan) st).1 = ⟨200, .points .nan⟩
    ∧ (addPoints un (some .nan) st).2.users.find?
        (fun x => x.username == un) = some { u with points := some .nan }
    ∧ (addPoints un (some .posInf) st).1 = ⟨200, .points .posInf⟩
    ∧ (addPoints un (some (.fin d)) st2).1 = ⟨200, .points (.fin d)⟩ := by
  refine ⟨?_, ?_, ?_, ?_⟩
  · simp [addPoints, h1, hq, jsOrZero_fin, JsNum.add]
  · simp only [addPoints, h1]
    have hperm := find?_updateFirst (fun x => x.username == un)
      (fun v => { v with points := some ((jsOrZero u.points).add .nan) })
      (fun x => rfl) st.users
    rw [hperm, h1]
    simp [hq, jsOrZero_fin, JsNum.add]
  · simp [addPoints, h1, hq, jsOrZero_fin, JsNum.add]
  · simp [addPoints, h2, hn, jsOrZero, JsNum.truthy, JsNum.add]

/-- Witness for the amended C10: alice at 0 points receives a NaN
delta; on a store where her points are already NaN, a delta of 5
returns 5. -/
theorem addPoints_nan_transient_witness :
    (addPoints "alice" (some .nan) aliceStore).1 = ⟨200, .points .nan⟩
    ∧ (addPoints "alice" (some .nan) aliceStore).2.users.find?
        (fun x => x.username == "alice")
      = some { aliceUser with points := some .nan }
    ∧ (addPoints "alice" (some .posInf) aliceStore).1
      = ⟨200, .points .posInf⟩
    ∧ (addPoints "alice" (some (.fin 5)) aliceNanStore).1
      = ⟨200, .points (.fin 5)⟩ :=
  addPoints_nan_transient "alice" 0 5 aliceStore aliceNanStore aliceUser
    { aliceUser with points := some .nan } rfl rfl rfl rfl
